import Mathlib

/-!
Verification of the WhatsApp Web API service core: a shallow embedding of
`src/whatsappService.js` (session lifecycle, lock cleanup, sends, incoming
message dispatch) and of the `MessageHandler` class (message log buffer,
auto-responder registry and matching), together with the phone validator
utilities.  JS strings are modelled as Lean `String` (a list of characters);
JS `Date.now()` is an explicit `now : Nat` parameter (milliseconds); the
external whatsapp-web.js client is an abstract behaviour record; a JS
`throw` that is caught by an enclosing `catch` is modelled by `Except` or by
directly producing the caught-branch result where the handler is unique.
-/

/-! ## JS string primitives -/

/-- JS `String.prototype.trim`: strip whitespace from both ends. -/
def jsTrim (s : String) : String :=
  String.mk (((s.toList.dropWhile Char.isWhitespace).reverse.dropWhile
    Char.isWhitespace).reverse)

/-- JS `str.replace(/\D/g, '')`: keep only decimal digits. -/
def digitsOnly (s : String) : String :=
  String.mk (s.toList.filter Char.isDigit)

/-- JS `String.prototype.toLowerCase` (ASCII-adequate model). -/
def jsToLower (s : String) : String :=
  String.mk (s.toList.map Char.toLower)

/-- Contiguous-sublist test on character lists (used for JS `includes`). -/
def listContains (pat : List Char) : List Char → Bool
  | [] => List.isPrefixOf pat []
  | c :: rest => List.isPrefixOf pat (c :: rest) || listContains pat rest

/-- JS `s.includes(sub)`: substring containment. -/
def jsIncludes (s sub : String) : Bool :=
  listContains sub.toList s.toList

/-- JS `s.startsWith(p)` on the character-sequence model. -/
def strStarts (s p : String) : Bool :=
  List.isPrefixOf p.toList s.toList

/-- JS `s.substring(n)` (drop the first `n` characters). -/
def strDrop (s : String) (n : Nat) : String :=
  String.mk (s.toList.drop n)

/-- JS string `length` on the character-sequence model. -/
def strLen (s : String) : Nat := s.toList.length

/-- Remove the first occurrence of `pat` from a character list (the effect of
JS `text.replace(pat, '')` with a string pattern, which replaces only the
first occurrence). -/
def removeFirst (pat : List Char) : List Char → List Char
  | [] => []
  | c :: cs =>
    if List.isPrefixOf pat (c :: cs) then (c :: cs).drop pat.length
    else c :: removeFirst pat cs

/-- JS `s.replace(pat, '')` for a string pattern: first occurrence only. -/
def jsReplaceFirst (s pat : String) : String :=
  String.mk (removeFirst pat.toList s.toList)

/-! ## Session lifecycle state machine (`setupEventHandlers`)

The mutable fields of `WhatsAppService` touched by the client event
handlers: `isReady`, `connectionStatus` (a string in the source, a closed
enum of the four values it ever takes here) and `qrCode`.  The `qr` handler
stores the data-URL render of the payload; we keep the payload itself as the
opaque artifact. -/

/-- The four values `this.connectionStatus` takes in the source:
`disconnected`; `connecting` (set by the `qr` handler);
`connected` (set by the `authenticated` handler); and
`authenticated` (set by the `ready` handler). -/
inductive ConnStatus where
  | disconnected
  | connecting
  | connected
  | authenticated
  deriving DecidableEq, Repr

/-- Raw events emitted by the Messaging Client that the service subscribes
to in `setupEventHandlers`.  `message` and `error` events do not touch the
lifecycle fields and are represented by `clientError` / omitted here. -/
inductive ClientEvent where
  | qr (payload : String)
  | ready
  | authenticated
  | loadingScreen
  | authFailure
  | disconnected (reason : String)
  | clientError
  deriving DecidableEq, Repr

/-- The lifecycle-relevant projection of the service state. -/
structure SessionView where
  isReady : Bool
  connectionStatus : ConnStatus
  qrCode : Option String
  deriving DecidableEq, Repr

/-- Constructor state: `isReady = false`, `connectionStatus =
disconnected`, `qrCode = null`. -/
def initialSession : SessionView :=
  { isReady := false, connectionStatus := .disconnected, qrCode := none }

/-- One client event, exactly as the handlers in `setupEventHandlers`
mutate the three fields:
`qr` sets status `connecting` and stores the artifact;
`ready` sets `isReady`, status `authenticated`, clears the artifact;
`authenticated` sets status `connected` (artifact untouched);
`loading_screen` only logs;
`auth_failure` sets status `disconnected`, drops readiness (artifact
untouched);
`disconnected` sets status `disconnected`, drops readiness, clears the
artifact. -/
def sessionStep (s : SessionView) : ClientEvent → SessionView
  | .qr payload =>
      { s with connectionStatus := .connecting, qrCode := some payload }
  | .ready =>
      { s with isReady := true, connectionStatus := .authenticated,
               qrCode := none }
  | .authenticated => { s with connectionStatus := .connected }
  | .loadingScreen => s
  | .authFailure =>
      { s with connectionStatus := .disconnected, isReady := false }
  | .disconnected _ =>
      { s with connectionStatus := .disconnected, isReady := false,
               qrCode := none }
  | .clientError => s

/-- Run a sequence of client events from a state. -/
def runEvents (s : SessionView) : List ClientEvent → SessionView
  | [] => s
  | e :: es => runEvents (sessionStep s e) es

/-! ## Lock Reconciler (`cleanupStaleLocks`)

The session directory is a set of file names plus the set of names whose
`unlinkSync` raises (a handle still held by a crashed process, EPERM, …).
The source iterates the fixed name list inside a single `try`; the first
raising `unlinkSync` aborts the loop and the `catch` swallows the error. -/

/-- The fixed list of exclusivity marker names removed by the reconciler. -/
def lockFileNames : List String :=
  ["lockfile", "DevToolsActivePort", "SingletonLock", "SingletonSocket",
   "SingletonCookie"]

/-- Session directory state: the files present, and those whose removal
raises. -/
structure DirState where
  files : List String
  stuck : List String
  deriving DecidableEq, Repr

/-- The `for` loop of `cleanupStaleLocks`: returns the remaining files and
the error message of the first raising `unlinkSync`, if any (the loop does
not continue past a raise; the enclosing `catch` receives it). -/
def cleanupLoop (stuck : List String) : List String → List String →
    List String × Option String
  | [], files => (files, none)
  | n :: ns, files =>
    if n ∈ files then
      if n ∈ stuck then (files, some "unlink failed")
      else cleanupLoop stuck ns (files.filter (fun m => m ≠ n))
    else cleanupLoop stuck ns files

/-- Function `cleanupStaleLocks`: run the loop, swallow any error (the source logs a
warning and returns normally). -/
def cleanupStaleLocks (d : DirState) : DirState :=
  { d with files := (cleanupLoop d.stuck lockFileNames d.files).1 }

/-- The same call seen from the caller: the unconditional `catch` means the
function always returns normally, whatever the loop raised. -/
def cleanupStaleLocksRun (d : DirState) : Except String DirState :=
  match cleanupLoop d.stuck lockFileNames d.files with
  | (fs, _) => .ok { d with files := fs }

/-! ### Lock Reconciler lemmas -/

theorem cleanupLoop_not_mem (stuck : List String) (x : String) :
    ∀ (ns files : List String), x ∉ files →
      x ∉ (cleanupLoop stuck ns files).1 := by
  intro ns
  induction ns with
  | nil => intro files h; simpa [cleanupLoop] using h
  | cons n ns ih =>
    intro files h
    by_cases hn : n ∈ files
    · by_cases hs : n ∈ stuck
      · simpa [cleanupLoop, hn, hs] using h
      · have hx : x ∉ files.filter (fun m => m ≠ n) := by
          intro hx
          exact h (List.mem_of_mem_filter hx)
        simpa [cleanupLoop, hn, hs] using ih _ hx
    · simpa [cleanupLoop, hn] using ih _ h

theorem cleanupLoop_idem (stuck : List String) :
    ∀ (ns files : List String),
      cleanupLoop stuck ns (cleanupLoop stuck ns files).1 =
        cleanupLoop stuck ns files := by
  intro ns
  induction ns with
  | nil => intro files; simp [cleanupLoop]
  | cons n ns ih =>
    intro files
    by_cases hn : n ∈ files
    · by_cases hs : n ∈ stuck
      · simp [cleanupLoop, hn, hs]
      · have hnf : n ∉ files.filter (fun m => m ≠ n) := by
          simp [List.mem_filter]
        have hnot : n ∉ (cleanupLoop stuck ns (files.filter (fun m => m ≠ n))).1 :=
          cleanupLoop_not_mem stuck n ns _ hnf
        simp only [cleanupLoop, if_pos hn, if_neg hs, if_neg hnot]
        exact ih _
    · have hnot : n ∉ (cleanupLoop stuck ns files).1 :=
        cleanupLoop_not_mem stuck n ns files hn
      simp only [cleanupLoop]
      rw [if_neg hn, if_neg hnot]
      exact ih files

theorem cleanupLoop_absent (stuck : List String) :
    ∀ (ns files : List String), (∀ n ∈ ns, n ∉ files) →
      cleanupLoop stuck ns files = (files, none) := by
  intro ns
  induction ns with
  | nil => intro files _; simp [cleanupLoop]
  | cons n ns ih =>
    intro files h
    have hn : n ∉ files := h n (by simp)
    have hrest : ∀ m ∈ ns, m ∉ files := fun m hm => h m (by simp [hm])
    simp only [cleanupLoop]
    rw [if_neg hn]
    exact ih files hrest

/-! ## Claim C2: AuthArtifact presence vs. session state -/

theorem sessionInv_step (s : SessionView) (e : ClientEvent)
    (h : s.qrCode.isSome = true → s.connectionStatus ≠ ConnStatus.authenticated) :
    (sessionStep s e).qrCode.isSome = true →
      (sessionStep s e).connectionStatus ≠ ConnStatus.authenticated := by
  cases e <;> simp [sessionStep] <;> intro hq <;> exact h hq

theorem runEvents_inv (es : List ClientEvent) :
    ∀ s : SessionView,
      (s.qrCode.isSome = true → s.connectionStatus ≠ ConnStatus.authenticated) →
      ((runEvents s es).qrCode.isSome = true →
        (runEvents s es).connectionStatus ≠ ConnStatus.authenticated) := by
  induction es with
  | nil => intro s h; exact h
  | cons e es ih =>
    intro s h
    exact ih (sessionStep s e) (sessionInv_step s e h)

/-- C2 counterexample: after the reachable event trace `qr` then
`authenticated`, the artifact is still present although the machine is in
the state entered by the `authenticated` event (status `connected`), not in
AwaitingScan (status `connecting`, entered by `qr`): the handler for
`authenticated` does not clear `qrCode`, so presence of the artifact is not
equivalent to being in AwaitingScan. -/
theorem qrCode_iff_awaitingScan_cex :
    (runEvents initialSession
        [ClientEvent.qr "tok", ClientEvent.authenticated]).qrCode = some "tok" ∧
    (runEvents initialSession
        [ClientEvent.qr "tok", ClientEvent.authenticated]).connectionStatus =
      ConnStatus.connected ∧
    ¬ (((runEvents initialSession
          [ClientEvent.qr "tok", ClientEvent.authenticated]).qrCode.isSome = true) ↔
       (runEvents initialSession
          [ClientEvent.qr "tok", ClientEvent.authenticated]).connectionStatus =
         ConnStatus.connecting) := by
  refine ⟨rfl, rfl, ?_⟩
  intro h
  exact absurd (h.mp rfl) (by decide)

/-- C2 (amended): the artifact is set by the `qr` event and cleared by the
`ready` and `disconnected` events, but it is NOT cleared by the
`authenticated` or `auth_failure` events, so it can persist into the
Authenticated and (after an auth failure) Disconnected states; the invariant
that does hold on every reachable state is that the artifact is never
present in the Ready state (status `authenticated`, entered by `ready`). -/
theorem qrCode_lifecycle (s : SessionView) (p reason : String)
    (es : List ClientEvent) :
    (sessionStep s (ClientEvent.qr p)).qrCode = some p ∧
    (sessionStep s ClientEvent.ready).qrCode = none ∧
    (sessionStep s (ClientEvent.disconnected reason)).qrCode = none ∧
    (sessionStep s ClientEvent.authenticated).qrCode = s.qrCode ∧
    (sessionStep s ClientEvent.authFailure).qrCode = s.qrCode ∧
    (((runEvents initialSession es).qrCode.isSome &&
      ((runEvents initialSession es).connectionStatus ==
        ConnStatus.authenticated)) = false) := by
  refine ⟨rfl, rfl, rfl, rfl, rfl, ?_⟩
  have h := runEvents_inv es initialSession (by simp [initialSession])
  cases hq : (runEvents initialSession es).qrCode.isSome with
  | false => simp
  | true =>
    have hne := h hq
    simp [hne]

/-! ## Claim C7: Lock Reconciler idempotence -/

/-- C7: running the Lock Reconciler twice leaves the directory exactly as
one run leaves it (the second run removes nothing); seen from the caller
both runs return normally whatever the loop raised internally (the `catch`
swallows removal failures); and when none of the named marker files are
present the run removes nothing and not even an internal `unlinkSync` error
occurs. -/
theorem cleanupStaleLocks_idempotent (d : DirState) :
    cleanupStaleLocks (cleanupStaleLocks d) = cleanupStaleLocks d ∧
    cleanupStaleLocksRun d = Except.ok (cleanupStaleLocks d) ∧
    cleanupStaleLocksRun (cleanupStaleLocks d) =
      Except.ok (cleanupStaleLocks (cleanupStaleLocks d)) ∧
    ((∀ n ∈ lockFileNames, n ∉ d.files) →
      cleanupStaleLocks d = d ∧
      (cleanupLoop d.stuck lockFileNames d.files).2 = none) := by
  refine ⟨?_, rfl, rfl, ?_⟩
  · show ({ cleanupStaleLocks d with
      files := (cleanupLoop d.stuck lockFileNames (cleanupStaleLocks d).files).1 }
        : DirState) = cleanupStaleLocks d
    have : (cleanupStaleLocks d).files = (cleanupLoop d.stuck lockFileNames d.files).1 := rfl
    rw [this]
    show ({ d with
      files := (cleanupLoop d.stuck lockFileNames
        (cleanupLoop d.stuck lockFileNames d.files).1).1 } : DirState) = cleanupStaleLocks d
    rw [cleanupLoop_idem]
    rfl
  · intro habs
    have h := cleanupLoop_absent d.stuck lockFileNames d.files habs
    constructor
    · show ({ d with files := (cleanupLoop d.stuck lockFileNames d.files).1 } : DirState) = d
      rw [h]
    · rw [h]

/-- C7 witness: a directory holding one unrelated file and no marker files;
both runs are no-ops and return normally. -/
theorem cleanupStaleLocks_idempotent_witness :
    cleanupStaleLocks (cleanupStaleLocks ⟨["other.txt"], []⟩) =
      cleanupStaleLocks ⟨["other.txt"], []⟩ ∧
    cleanupStaleLocks ⟨["other.txt"], []⟩ = ⟨["other.txt"], []⟩ ∧
    cleanupStaleLocksRun ⟨["other.txt"], []⟩ =
      Except.ok (cleanupStaleLocks ⟨["other.txt"], []⟩) :=
  ⟨(cleanupStaleLocks_idempotent ⟨["other.txt"], []⟩).1,
   ((cleanupStaleLocks_idempotent ⟨["other.txt"], []⟩).2.2.2 (by decide)).1,
   (cleanupStaleLocks_idempotent ⟨["other.txt"], []⟩).2.1⟩

/-! ## Phone validator utilities (`src/utils/validator.js`) -/

/-- Function `validatePhoneNumber` from the validator utilities (a falsy/non-string
argument is modelled by the empty string). -/
def validatePhoneNumber (phoneNumber : String) : Bool :=
  if phoneNumber = "" then false
  else
    let cleaned := digitsOnly phoneNumber
    if strLen cleaned < 9 || strLen cleaned > 12 then false
    else if strStarts cleaned "0" then
      (strLen cleaned == 10) && strStarts cleaned "05"
    else if strStarts cleaned "5" then strLen cleaned == 9
    else if strStarts cleaned "972" then strLen cleaned == 12
    else true

/-- Function `formatPhoneNumber` from the validator utilities; `.error` is a thrown
`Error` with that message. -/
def formatPhoneNumber (phoneNumber countryCode : String) :
    Except String String :=
  if phoneNumber = "" then .error "Phone number is required"
  else
    let cleaned := digitsOnly phoneNumber
    if countryCode = "972" then
      let c1 := if strStarts cleaned "0" then strDrop cleaned 1 else cleaned
      let c2 := if strStarts c1 "972" then strDrop c1 3 else c1
      if (strLen c2 == 9) && strStarts c2 "5" then
        .ok ("972" ++ c2 ++ "@c.us")
      else .error "Invalid Israeli mobile number format"
    else
      if strStarts cleaned countryCode then .ok (cleaned ++ "@c.us")
      else .ok (countryCode ++ cleaned ++ "@c.us")

/-! ## Send operations (`sendMessage`, `sendToChat`)

The external client is an abstract behaviour: `getNumberId` and
`sendMessage` either return a value or throw (carrying the error message
string).  The unique enclosing `catch` of each operation turns every throw
into the `{success:false, error, to, message}` record, so each throw site
below directly produces that caught-branch record.  Each operation also
returns the trace of client calls it performed. -/

/-- The fields of a successful `client.sendMessage` result that the service
reads (`result.id.id`, `result.timestamp`). -/
structure SendOk where
  msgId : String
  timestamp : Nat
  deriving DecidableEq, Repr

/-- One possible behaviour of the external Messaging Client. -/
structure ClientBehavior where
  getNumberId : String → Except String (Option String)
  send : String → String → Except String SendOk

/-- A call made to the external client. -/
inductive ClientCall where
  | getNumberId (formatted : String)
  | send (chatId : String) (body : String)
  deriving DecidableEq, Repr

/-- The result record returned by `sendMessage` / `sendToChat` (`to` is
spelled `toAddr`; absent JS fields are `none`). -/
structure SendResult where
  success : Bool
  messageId : Option String := none
  timestamp : Option Nat := none
  toAddr : Option String := none
  originalNumber : Option String := none
  message : Option String := none
  countryCode : Option String := none
  note : Option String := none
  error : Option String := none
  deriving DecidableEq, Repr

/-- The record built by the outer `catch` of both send operations. -/
def sendFailure (e toV msgV : String) : SendResult :=
  { success := false, error := some e, toAddr := some toV,
    message := some msgV }

/-- Operation `sendMessage(phoneNumber, message, countryCode)` of the service. -/
def sendMessage (isReady : Bool) (cb : ClientBehavior) (now : Nat)
    (phoneNumber message countryCode : String) :
    SendResult × List ClientCall :=
  if !isReady then
    (sendFailure "WhatsApp client is not ready. Please authenticate first."
      phoneNumber message, [])
  else if !(validatePhoneNumber phoneNumber) then
    (sendFailure "Invalid phone number format" phoneNumber message, [])
  else if message == "" || jsTrim message == "" then
    (sendFailure "Message cannot be empty" phoneNumber message, [])
  else
    match formatPhoneNumber phoneNumber countryCode with
    | .error e => (sendFailure e phoneNumber message, [])
    | .ok formatted =>
      match cb.getNumberId formatted with
      | .error e =>
        (sendFailure e phoneNumber message, [ClientCall.getNumberId formatted])
      | .ok none =>
        (sendFailure
          ("Phone number " ++ phoneNumber ++ " is not registered on WhatsApp")
          phoneNumber message, [ClientCall.getNumberId formatted])
      | .ok (some nid) =>
        match cb.send nid message with
        | .ok r =>
          ({ success := true, messageId := some r.msgId,
             timestamp := some r.timestamp, toAddr := some formatted,
             originalNumber := some phoneNumber, message := some message,
             countryCode := some countryCode },
           [ClientCall.getNumberId formatted, ClientCall.send nid message])
        | .error se =>
          if jsIncludes se "markedUnread" then
            ({ success := true, messageId := some ("pending-" ++ toString now),
               timestamp := some (now / 1000), toAddr := some formatted,
               originalNumber := some phoneNumber, message := some message,
               countryCode := some countryCode,
               note := some "Message likely delivered (markedUnread bug workaround)" },
             [ClientCall.getNumberId formatted, ClientCall.send nid message])
          else
            (sendFailure se phoneNumber message,
             [ClientCall.getNumberId formatted, ClientCall.send nid message])

/-- Operation `sendToChat(chatId, message)` of the service. -/
def sendToChat (isReady : Bool) (cb : ClientBehavior) (now : Nat)
    (chatId message : String) : SendResult × List ClientCall :=
  if !isReady then
    (sendFailure "WhatsApp client is not ready. Please authenticate first."
      chatId message, [])
  else if message == "" || jsTrim message == "" then
    (sendFailure "Message cannot be empty" chatId message, [])
  else
    match cb.send chatId message with
    | .ok r =>
      ({ success := true, messageId := some r.msgId,
         timestamp := some r.timestamp, toAddr := some chatId,
         message := some message },
       [ClientCall.send chatId message])
    | .error se =>
      if jsIncludes se "markedUnread" then
        ({ success := true, messageId := some ("pending-" ++ toString now),
           timestamp := some (now / 1000), toAddr := some chatId,
           message := some message,
           note := some "Message likely delivered (markedUnread bug workaround)" },
         [ClientCall.send chatId message])
      else
        (sendFailure se chatId message, [ClientCall.send chatId message])

theorem isPrefixOf_append_self (p s : List Char) :
    List.isPrefixOf p (p ++ s) = true := by
  induction p with
  | nil => simp [List.isPrefixOf]
  | cons c cs ih => simp [List.isPrefixOf, ih]

theorem strStarts_append_self (p s : String) : strStarts (p ++ s) p = true := by
  have h : (p ++ s).toList = p.toList ++ s.toList := rfl
  simp [strStarts, h, isPrefixOf_append_self]

/-! ## Claim C5: markedUnread workaround -/

/-- C5: whenever the client send primitive throws an error whose message
contains `markedUnread` (after the validations pass and, for `sendMessage`,
the number resolves), both send operations return `success = true` with a
message id of the form `pending-<now>` (so beginning with `pending-`), a
note annotation, and no error field: the error is never surfaced as a
failure. -/
theorem markedUnread_treated_as_success
    (cb : ClientBehavior) (now : Nat)
    (phoneNumber message countryCode chatId formatted nid se se2 : String)
    (hmsg : (message == "" || jsTrim message == "") = false)
    (hval : validatePhoneNumber phoneNumber = true)
    (hfmt : formatPhoneNumber phoneNumber countryCode = .ok formatted)
    (hnum : cb.getNumberId formatted = .ok (some nid))
    (hsend : cb.send nid message = .error se)
    (hmark : jsIncludes se "markedUnread" = true)
    (hsend2 : cb.send chatId message = .error se2)
    (hmark2 : jsIncludes se2 "markedUnread" = true) :
    ((sendMessage true cb now phoneNumber message countryCode).1.success = true ∧
     (sendMessage true cb now phoneNumber message countryCode).1.messageId =
       some ("pending-" ++ toString now) ∧
     strStarts ("pending-" ++ toString now) "pending-" = true ∧
     (sendMessage true cb now phoneNumber message countryCode).1.note =
       some "Message likely delivered (markedUnread bug workaround)" ∧
     (sendMessage true cb now phoneNumber message countryCode).1.error = none) ∧
    ((sendToChat true cb now chatId message).1.success = true ∧
     (sendToChat true cb now chatId message).1.messageId =
       some ("pending-" ++ toString now) ∧
     (sendToChat true cb now chatId message).1.note =
       some "Message likely delivered (markedUnread bug workaround)" ∧
     (sendToChat true cb now chatId message).1.error = none) := by
  constructor
  · simp only [sendMessage, hval, hmsg, hfmt, hnum, hsend, hmark,
      Bool.not_true, Bool.false_eq_true, if_false, ite_false]
    simp [strStarts_append_self]
  · simp only [sendToChat, hmsg, hsend2, hmark2, Bool.not_true,
      Bool.false_eq_true, if_false, ite_false]
    simp

/-- A concrete client behaviour that always throws the markedUnread error. -/
def cbMarked : ClientBehavior :=
  { getNumberId := fun _ => .ok (some "972501234567@c.us"),
    send := fun _ _ => .error "Evaluation failed: markedUnread is not a function" }

/-- C5 witness: a concrete ready-state send against `cbMarked`. -/
theorem markedUnread_treated_as_success_witness :
    (sendMessage true cbMarked 7 "0501234567" "hi" "972").1.success = true ∧
    (sendMessage true cbMarked 7 "0501234567" "hi" "972").1.messageId =
      some ("pending-" ++ toString 7) ∧
    (sendMessage true cbMarked 7 "0501234567" "hi" "972").1.note =
      some "Message likely delivered (markedUnread bug workaround)" ∧
    (sendMessage true cbMarked 7 "0501234567" "hi" "972").1.error = none ∧
    (sendToChat true cbMarked 7 "123@c.us" "hi").1.success = true ∧
    (sendToChat true cbMarked 7 "123@c.us" "hi").1.error = none := by
  have h := markedUnread_treated_as_success cbMarked 7 "0501234567" "hi"
    "972" "123@c.us" "972501234567@c.us" "972501234567@c.us"
    "Evaluation failed: markedUnread is not a function"
    "Evaluation failed: markedUnread is not a function"
    (by decide) (by decide) rfl rfl rfl (by decide) rfl (by decide)
  exact ⟨h.1.1, h.1.2.1, h.1.2.2.2.1, h.1.2.2.2.2, h.2.1, h.2.2.2.2⟩

/-! ## Claim C8: empty message rejected before any client call -/

/-- C8: for an empty or whitespace-only message, both send operations fail
without performing any client call, in every readiness state: the client
call trace is empty and the result is a failure record. -/
theorem empty_message_rejected_before_client
    (isReady : Bool) (cb : ClientBehavior) (now : Nat)
    (phoneNumber message countryCode chatId : String)
    (hempty : jsTrim message = "") :
    (sendMessage isReady cb now phoneNumber message countryCode).2 = [] ∧
    (sendMessage isReady cb now phoneNumber message countryCode).1.success = false ∧
    (sendToChat isReady cb now chatId message).2 = [] ∧
    (sendToChat isReady cb now chatId message).1.success = false := by
  cases isReady with
  | false => simp [sendMessage, sendToChat, sendFailure]
  | true =>
    cases hv : validatePhoneNumber phoneNumber with
    | false => simp [sendMessage, sendToChat, sendFailure, hv, hempty]
    | true => simp [sendMessage, sendToChat, sendFailure, hv, hempty]

/-- C8 witness: a whitespace-only message in the ready state with a live
client behaviour. -/
theorem empty_message_rejected_before_client_witness :
    (sendMessage true cbMarked 7 "0501234567" "  " "972").2 = [] ∧
    (sendMessage true cbMarked 7 "0501234567" "  " "972").1.success = false ∧
    (sendToChat true cbMarked 7 "123@c.us" "  ").2 = [] ∧
    (sendToChat true cbMarked 7 "123@c.us" "  ").1.success = false :=
  empty_message_rejected_before_client true cbMarked 7 "0501234567" "  "
    "972" "123@c.us" (by decide)

/-! ## Claim C9: send operations never throw to the caller -/

/-- C9: for every input and every client behaviour, both send operations
return a result record: either a success with no error field, or a failure
with `success = false` and an error message — never an exception (the outer
catch-all converts every thrown error into the failure record). -/
theorem send_operations_never_throw
    (isReady : Bool) (cb : ClientBehavior) (now : Nat)
    (phoneNumber message countryCode chatId : String) :
    (((sendMessage isReady cb now phoneNumber message countryCode).1.success = true ∧
      (sendMessage isReady cb now phoneNumber message countryCode).1.error = none) ∨
     ((sendMessage isReady cb now phoneNumber message countryCode).1.success = false ∧
      (sendMessage isReady cb now phoneNumber message countryCode).1.error.isSome = true)) ∧
    (((sendToChat isReady cb now chatId message).1.success = true ∧
      (sendToChat isReady cb now chatId message).1.error = none) ∨
     ((sendToChat isReady cb now chatId message).1.success = false ∧
      (sendToChat isReady cb now chatId message).1.error.isSome = true)) := by
  constructor
  · unfold sendMessage
    repeat' split
    all_goals simp [sendFailure]
  · unfold sendToChat
    repeat' split
    all_goals simp [sendFailure]

/-! ## Incoming message dispatch (`handleIncomingMessage`)

The normalized record built at the top of `handleIncomingMessage` (JS
`from`/`to` are spelled `fromAddr`/`toAddr`). -/

structure MessageData where
  id : String
  idSerialized : String
  fromAddr : String
  toAddr : String
  body : String
  timestamp : Nat
  type : String
  isGroupMsg : Bool
  author : Option String
  notifyName : Option String
  fromMe : Bool
  deriving DecidableEq, Repr

/-- A row of the SQLite `messages` table (`id` is the PRIMARY KEY). -/
structure DbRow where
  id : String
  fromNumber : String
  toNumber : String
  body : String
  timestamp : Nat
  type : String
  isGroupMsg : Nat
  processed : Nat
  deriving DecidableEq, Repr

/-- The row bound by the `INSERT OR REPLACE` statement. -/
def rowOfMessage (m : MessageData) : DbRow :=
  { id := m.id, fromNumber := m.fromAddr, toNumber := m.toAddr,
    body := m.body, timestamp := m.timestamp, type := m.type,
    isGroupMsg := if m.isGroupMsg then 1 else 0, processed := 0 }

/-- Upsert `INSERT OR REPLACE` keyed on the `id` PRIMARY KEY: replace the matching
row in place, else append. -/
def dbInsertOrReplace (db : List DbRow) (r : DbRow) : List DbRow :=
  if db.any (fun x => x.id == r.id) then
    db.map (fun x => if x.id == r.id then r else x)
  else db ++ [r]

/-- One webhook HTTP POST with its fixed envelope. -/
structure WebhookRequest where
  url : String
  event : String
  payloadId : String
  payloadFrom : String
  payloadTo : String
  payloadBody : String
  payloadTimestamp : Nat
  payloadFromMe : Bool
  payloadIsGroupMsg : Bool
  payloadType : String
  deriving DecidableEq, Repr

/-- The webhook POST performed by `handleIncomingMessage` whenever
`WEBHOOK_URL` is configured.  The source builds and sends the envelope
without any `fromMe` condition (the payload even carries `fromMe`), and the
payload `isGroupMsg` is recomputed from the address, as `includes` of
`@g.us` on `message.from`. -/
def webhookRequestsFor (webhookUrl : Option String) (m : MessageData) :
    List WebhookRequest :=
  match webhookUrl with
  | none => []
  | some url =>
    [{ url := url, event := "message", payloadId := m.idSerialized,
       payloadFrom := m.fromAddr, payloadTo := m.toAddr,
       payloadBody := m.body, payloadTimestamp := m.timestamp,
       payloadFromMe := m.fromMe,
       payloadIsGroupMsg := jsIncludes m.fromAddr "@g.us",
       payloadType := m.type }]

/-- Observable outcome of one `handleIncomingMessage` dispatch: the updated
DB, whether the `📨 Incoming message received` info log ran (the only part
of the function gated on `!message.fromMe`), and the webhook POSTs made. -/
structure DispatchOutcome where
  db : List DbRow
  incomingLogged : Bool
  webhooks : List WebhookRequest
  deriving DecidableEq, Repr

/-- Dispatch `handleIncomingMessage`: upsert into the store, log if not from self,
post the webhook if a URL is configured (handler fan-out is modelled
separately by the `MessageHandler` functions below). -/
def handleIncomingMessage (webhookUrl : Option String) (db : List DbRow)
    (m : MessageData) : DispatchOutcome :=
  { db := dbInsertOrReplace db (rowOfMessage m),
    incomingLogged := !m.fromMe,
    webhooks := webhookRequestsFor webhookUrl m }

/-! ## MessageLogBuffer (`addToMessageLog` of `MessageHandler`) -/

/-- Bound `this.maxLogSize`. -/
def maxLogSize : Nat := 1000

/-- An entry of `this.messageLog` (the spread record plus `processedAt`). -/
structure LogEntry where
  data : MessageData
  processedAt : Nat
  deriving DecidableEq, Repr

/-- Function `addToMessageLog`: push unconditionally, then keep only the last
`maxLogSize` entries when over the bound. -/
def addToMessageLog (log : List LogEntry) (m : MessageData) (now : Nat) :
    List LogEntry :=
  if maxLogSize < (log ++ [LogEntry.mk m now]).length then
    (log ++ [LogEntry.mk m now]).drop
      ((log ++ [LogEntry.mk m now]).length - maxLogSize)
  else log ++ [LogEntry.mk m now]

/-- Number of DB rows carrying a given id. -/
def countRowsWithId (db : List DbRow) (i : String) : Nat :=
  (db.filter (fun r => r.id == i)).length

/-- Number of log-buffer entries carrying a given id. -/
def countLogWithId (log : List LogEntry) (i : String) : Nat :=
  (log.filter (fun e => e.data.id == i)).length

theorem countRows_eq_countP (db : List DbRow) (i : String) :
    countRowsWithId db i = db.countP (fun r => r.id == i) :=
  (List.countP_eq_length_filter _ _).symm

theorem countRows_map_replace (db : List DbRow) (r : DbRow) :
    countRowsWithId (db.map (fun x => if x.id == r.id then r else x)) r.id =
      countRowsWithId db r.id := by
  rw [countRows_eq_countP, countRows_eq_countP, List.countP_map]
  refine List.countP_congr ?_
  intro x _
  by_cases hx : (x.id == r.id) = true
  · simp [Function.comp, hx]
  · simp [Function.comp, hx]

theorem countRows_any_false (db : List DbRow) (i : String)
    (h : db.any (fun x => x.id == i) = false) :
    countRowsWithId db i = 0 := by
  rw [countRows_eq_countP, List.countP_eq_zero]
  intro a ha
  have := (List.any_eq_false.mp h) a ha
  simpa using this

theorem countRows_any_true (db : List DbRow) (i : String)
    (h : db.any (fun x => x.id == i) = true) :
    1 ≤ countRowsWithId db i := by
  rw [countRows_eq_countP]
  obtain ⟨x, hx, hpx⟩ := List.any_eq_true.mp h
  exact List.countP_pos_iff.mpr ⟨x, hx, hpx⟩

theorem countRows_insertOrReplace (db : List DbRow) (r : DbRow)
    (h : countRowsWithId db r.id ≤ 1) :
    countRowsWithId (dbInsertOrReplace db r) r.id = 1 := by
  unfold dbInsertOrReplace
  by_cases hany : db.any (fun x => x.id == r.id) = true
  · rw [if_pos hany, countRows_map_replace]
    exact Nat.le_antisymm h (countRows_any_true db r.id hany)
  · rw [if_neg hany]
    have h0 : countRowsWithId db r.id = 0 :=
      countRows_any_false db r.id (by simpa using hany)
    rw [countRows_eq_countP] at h0 ⊢
    rw [List.countP_append, h0]
    simp [List.countP_cons]

/-! ## Claim C1: webhook emission vs. fromMe -/

/-- A record authored by this account itself (`fromMe = true`). -/
def selfMsg : MessageData :=
  { id := "m1", idSerialized := "true_972501234567@c.us_m1",
    fromAddr := "972500000001@c.us", toAddr := "972501234567@c.us",
    body := "note to self", timestamp := 1700000000, type := "chat",
    isGroupMsg := false, author := none, notifyName := none, fromMe := true }

/-- C1 counterexample: with a webhook URL configured, dispatching a record
authored by this account itself (`fromMe = true`) DOES emit the webhook
POST — the `!message.fromMe` test in the source guards only the incoming
info log, not the webhook block, so the claimed only-if-not-fromMe gating
does not hold. -/
theorem webhook_sent_for_fromMe_cex :
    selfMsg.fromMe = true ∧
    (handleIncomingMessage (some "http://hook.example") [] selfMsg).webhooks ≠ [] ∧
    ((handleIncomingMessage (some "http://hook.example") [] selfMsg).webhooks.map
        (fun w => w.payloadFromMe)) = [true] ∧
    (handleIncomingMessage (some "http://hook.example") [] selfMsg).incomingLogged
      = false := by
  refine ⟨rfl, ?_, rfl, rfl⟩
  decide

/-- C1 (amended): whenever a webhook URL is configured, the webhook POST is
emitted for every dispatched record, regardless of `fromMe` (which is even
carried inside the payload); with no URL configured no webhook call is
made; only the `📨 Incoming message received` info log is gated on
`!fromMe`. -/
theorem webhook_emitted_iff_configured (url : String) (db : List DbRow)
    (m : MessageData) :
    (handleIncomingMessage (some url) db m).webhooks.length = 1 ∧
    ((handleIncomingMessage (some url) db m).webhooks.map
        (fun w => w.payloadFromMe)) = [m.fromMe] ∧
    (handleIncomingMessage none db m).webhooks = [] ∧
    (handleIncomingMessage (some url) db m).incomingLogged = !m.fromMe :=
  ⟨rfl, rfl, rfl, rfl⟩

/-! ## Claim C3: redelivery upsert vs. log-buffer duplication -/

/-- An inbound record used to exercise redelivery. -/
def dupMsg : MessageData :=
  { id := "dup", idSerialized := "false_972500000002@c.us_dup",
    fromAddr := "972500000002@c.us", toAddr := "972501234567@c.us",
    body := "hello", timestamp := 1700000001, type := "chat",
    isGroupMsg := false, author := none, notifyName := none, fromMe := false }

/-- C3 counterexample: processing the same event twice leaves exactly one
row in the Persistence Store (the `INSERT OR REPLACE` upsert), but
`addToMessageLog` pushes unconditionally, so the MessageLogBuffer ends up
holding TWO entries with that id — the buffer does deduplicate nothing,
contrary to the claim. -/
theorem messageLog_duplicate_cex :
    countRowsWithId
      (handleIncomingMessage none
        (handleIncomingMessage none [] dupMsg).db dupMsg).db "dup" = 1 ∧
    countLogWithId (addToMessageLog (addToMessageLog [] dupMsg 5) dupMsg 6)
      "dup" = 2 := by
  constructor
  · decide
  · decide

/-- C3 (amended): redelivering an event with the same id leaves exactly one
row with that id in the Persistence Store (given the PRIMARY-KEY invariant
that the store held at most one such row before), but the MessageLogBuffer
appends one entry per delivery — below its bound it gains exactly two
entries for the redelivered id. -/
theorem redelivery_upsert (url : Option String) (db : List DbRow)
    (m m2 : MessageData) (log : List LogEntry) (t t2 : Nat)
    (hid : m2.id = m.id)
    (hdb : countRowsWithId db m.id ≤ 1)
    (hlen : log.length + 2 ≤ maxLogSize) :
    countRowsWithId
      (handleIncomingMessage url (handleIncomingMessage url db m).db m2).db
      m.id = 1 ∧
    countLogWithId (addToMessageLog (addToMessageLog log m t) m2 t2) m.id =
      countLogWithId log m.id + 2 := by
  constructor
  · have hdb' : countRowsWithId db (rowOfMessage m).id ≤ 1 := hdb
    have h1 : countRowsWithId (dbInsertOrReplace db (rowOfMessage m))
        (rowOfMessage m).id = 1 :=
      countRows_insertOrReplace db (rowOfMessage m) hdb'
    have hle : countRowsWithId (dbInsertOrReplace db (rowOfMessage m))
        (rowOfMessage m2).id ≤ 1 := by
      have hids : (rowOfMessage m2).id = (rowOfMessage m).id := hid
      rw [hids, h1]
    have h2 : countRowsWithId
        (dbInsertOrReplace (dbInsertOrReplace db (rowOfMessage m))
          (rowOfMessage m2)) (rowOfMessage m2).id = 1 :=
      countRows_insertOrReplace _ (rowOfMessage m2) hle
    show countRowsWithId
      (dbInsertOrReplace (dbInsertOrReplace db (rowOfMessage m))
        (rowOfMessage m2)) m.id = 1
    have hid2 : (rowOfMessage m2).id = m.id := hid
    rw [← hid2]
    exact h2
  · have hno1 : ¬ maxLogSize < (log ++ [LogEntry.mk m t]).length := by
      rw [List.length_append]
      simp only [List.length_cons, List.length_nil]
      omega
    have step1 : addToMessageLog log m t = log ++ [LogEntry.mk m t] := by
      unfold addToMessageLog
      rw [if_neg hno1]
    have hno2 : ¬ maxLogSize <
        ((log ++ [LogEntry.mk m t]) ++ [LogEntry.mk m2 t2]).length := by
      rw [List.length_append, List.length_append]
      simp only [List.length_cons, List.length_nil]
      omega
    have step2 : addToMessageLog (log ++ [LogEntry.mk m t]) m2 t2 =
        (log ++ [LogEntry.mk m t]) ++ [LogEntry.mk m2 t2] := by
      unfold addToMessageLog
      rw [if_neg hno2]
    rw [step1, step2]
    unfold countLogWithId
    rw [List.filter_append, List.filter_append, List.length_append,
        List.length_append]
    simp [hid]

/-- C3 witness: a fresh store, buffer and record. -/
theorem redelivery_upsert_witness :
    countRowsWithId
      (handleIncomingMessage none
        (handleIncomingMessage none [] dupMsg).db dupMsg).db dupMsg.id = 1 ∧
    countLogWithId (addToMessageLog (addToMessageLog [] dupMsg 5) dupMsg 6)
      dupMsg.id = countLogWithId [] dupMsg.id + 2 :=
  redelivery_upsert none [] dupMsg dupMsg [] 5 6 rfl (by decide) (by decide)

/-! ## Auto-Response Engine (`MessageHandler`)

The dynamically-typed JS trigger value becomes a tagged variant: a literal
string, a RegExp (modelled by its `test` function), a predicate function
(which may throw — `Except`), or any other JS value (`other`: a number,
object, null, …).  Responses likewise: a static string, a producer function
(which may throw), or any other value (for which `executeAutoResponder`
leaves `response` empty). -/

inductive TriggerVal where
  | str (s : String)
  | pattern (test : String → Bool)
  | fn (f : String → Except String Bool)
  | other

inductive ResponseVal where
  | text (s : String)
  | producer (f : MessageData → Except String String)
  | otherResp

/-- The recognised fields of the `options` argument of `addAutoResponder`. -/
structure ResponderOptions where
  id : Option String := none
  enabled : Option Bool := none
  description : Option String := none

/-- A stored responder rule. `createdAt` keeps the registration instant. -/
structure Responder where
  id : String
  trigger : TriggerVal
  response : ResponseVal
  enabled : Bool
  createdAt : Nat
  description : String

/-- The `this.autoResponders` JS `Map` in insertion order; `set` on an
existing key overwrites in place (keeping the original position), otherwise
appends. -/
def registrySet (reg : List (String × Responder)) (key : String)
    (r : Responder) : List (String × Responder) :=
  if reg.any (fun p => p.1 == key) then
    reg.map (fun p => if p.1 == key then (key, r) else p)
  else reg ++ [(key, r)]

/-- Lookup (JS `Map.get`): the value stored under a key. -/
def registryGet (reg : List (String × Responder)) (key : String) :
    Option Responder :=
  (reg.find? (fun p => p.1 == key)).map Prod.snd

/-- Function `addAutoResponder(trigger, response, options)`: no validation of the
trigger is performed; the key is `options.id` when truthy, else the default
`responder_` followed by `Date.now()` (JS `||`: an empty-string id also
falls back to the default); the stored
record applies the defaults and then the `...options` spread, so `enabled`
ends up `options.enabled.getD true` and the stored `id` field is the raw
option value when present.  Returns the new registry and the id. -/
def addAutoResponder (reg : List (String × Responder)) (trigger : TriggerVal)
    (response : ResponseVal) (options : ResponderOptions) (now : Nat) :
    List (String × Responder) × String :=
  let responderId := match options.id with
    | some s => if s = "" then "responder_" ++ toString now else s
    | none => "responder_" ++ toString now
  let r : Responder :=
    { id := options.id.getD responderId, trigger := trigger,
      response := response, enabled := options.enabled.getD true,
      createdAt := now, description := options.description.getD "" }
  (registrySet reg responderId r, responderId)

/-- Function `matchesTrigger(messageText, trigger)`: substring containment for a
string trigger (lower-cased), `test` for a RegExp, direct invocation for a
function (its throw is caught and yields `false`), and `false` for every
other value. -/
def matchesTrigger (messageText : String) : TriggerVal → Bool
  | .str s => jsIncludes messageText (jsToLower s)
  | .pattern test => test messageText
  | .fn f =>
    match f messageText with
    | .ok b => b
    | .error _ => false
  | .other => false

/-- Resolution of the `response` field inside `executeAutoResponder`:
a static string stands; a producer is invoked (its throw is caught by the
surrounding try, yielding no send, `none` here); any other value leaves the
initial empty string. -/
def resolveResponse (m : MessageData) : ResponseVal → Option String
  | .text s => some s
  | .producer f =>
    match f m with
    | .ok s => some s
    | .error _ => none
  | .otherResp => some ""

/-- Sender stripping in `executeAutoResponder`: `messageData.from` with the
first `@c.us` occurrence removed, then the first `972` occurrence removed
(JS `replace` with a string pattern touches only the first occurrence). -/
def stripSenderAddress (a : String) : String :=
  jsReplaceFirst (jsReplaceFirst a "@c.us") "972"

/-- A call to `whatsappService.sendMessage` made by `executeAutoResponder`. -/
structure SendAttempt where
  senderNumber : String
  response : String
  deriving DecidableEq, Repr

/-- Function `executeAutoResponder`: resolve the response; send only when it is
non-empty (a falsy empty response sends nothing; a throwing producer is
caught and sends nothing). -/
def executeAutoResponder (r : Responder) (m : MessageData) :
    List SendAttempt :=
  match resolveResponse m r.response with
  | none => []
  | some resp =>
    if resp == "" then []
    else [⟨stripSenderAddress m.fromAddr, resp⟩]

/-- The `for (const [k, responder] of this.autoResponders)` loop of
`checkAutoResponders`: returns the keys of the rules visited (in order) and
the send attempts made; the loop `break`s after the first enabled rule whose
trigger matches. -/
def checkLoop (text : String) (m : MessageData) :
    List (String × Responder) → List String × List SendAttempt
  | [] => ([], [])
  | (k, r) :: rest =>
    if r.enabled && matchesTrigger text r.trigger then
      ([k], executeAutoResponder r m)
    else
      ((k :: (checkLoop text m rest).1), (checkLoop text m rest).2)

/-- Function `checkAutoResponders(messageData)`: only records whose `type`
is `chat` are considered; the text is `body.toLowerCase().trim()`. -/
def checkAutoResponders (reg : List (String × Responder)) (m : MessageData) :
    List String × List SendAttempt :=
  if m.type == "chat" then checkLoop (jsTrim (jsToLower m.body)) m reg
  else ([], [])

/-! ### Registry lemmas -/

theorem registryGet_of_any_true (key : String) (r : Responder) :
    ∀ reg : List (String × Responder),
      reg.any (fun p => p.1 == key) = true →
      registryGet (reg.map (fun p => if p.1 == key then (key, r) else p))
        key = some r := by
  intro reg
  induction reg with
  | nil => intro h; simp at h
  | cons p ps ih =>
    intro h
    by_cases hp : (p.1 == key) = true
    · simp [registryGet, List.find?, hp]
    · have hps : ps.any (fun p => p.1 == key) = true := by
        rcases List.any_eq_true.mp h with ⟨q, hq, hpq⟩
        rcases List.mem_cons.mp hq with hq1 | hq2
        · exact absurd (hq1 ▸ hpq) hp
        · exact List.any_eq_true.mpr ⟨q, hq2, hpq⟩
      have := ih hps
      simpa [registryGet, List.find?, hp] using this

theorem registryGet_of_any_false (key : String) (r : Responder) :
    ∀ reg : List (String × Responder),
      reg.any (fun p => p.1 == key) = false →
      registryGet (reg ++ [(key, r)]) key = some r := by
  intro reg
  induction reg with
  | nil => intro _; simp [registryGet, List.find?]
  | cons p ps ih =>
    intro h
    simp only [List.any_cons, Bool.or_eq_false_iff] at h
    have := ih h.2
    simpa [registryGet, List.find?, h.1] using this

theorem registryGet_registrySet (reg : List (String × Responder))
    (key : String) (r : Responder) :
    registryGet (registrySet reg key r) key = some r := by
  unfold registrySet
  by_cases h : reg.any (fun p => p.1 == key) = true
  · rw [if_pos h]
    exact registryGet_of_any_true key r reg h
  · rw [if_neg h]
    refine registryGet_of_any_false key r reg ?_
    cases hb : reg.any (fun p => p.1 == key) with
    | false => rfl
    | true => exact absurd hb h

/-! ## Claim C4: addResponder accepts any trigger, validating nothing -/

/-- C4 counterexample: a trigger of a non-supported kind (any JS value that
is neither a string, a RegExp nor a function — `TriggerVal.other`) is NOT
rejected: the rule is stored (the registry grows) and its id is returned;
such a trigger simply never matches. -/
theorem addAutoResponder_no_validation_cex :
    (addAutoResponder [] TriggerVal.other (ResponseVal.text "x") {} 5).1.length
      = 1 ∧
    (addAutoResponder [] TriggerVal.other (ResponseVal.text "x") {} 5).2 =
      "responder_5" ∧
    matchesTrigger "anything" TriggerVal.other = false := by
  refine ⟨rfl, ?_, rfl⟩
  rfl

/-- C4 (amended): `addAutoResponder` performs no validation of the trigger
kind: for EVERY trigger value — including non-supported kinds — a rule is
stored under the computed id and that id is returned; the stored rule
carries the given trigger and `enabled` defaults to true; a non-supported
trigger never matches any text. -/
theorem addAutoResponder_stores_any_trigger
    (reg : List (String × Responder)) (trigger : TriggerVal)
    (response : ResponseVal) (options : ResponderOptions) (now : Nat)
    (text : String) :
    registryGet (addAutoResponder reg trigger response options now).1
        (addAutoResponder reg trigger response options now).2 =
      some { id := options.id.getD (addAutoResponder reg trigger response options now).2,
             trigger := trigger, response := response,
             enabled := options.enabled.getD true, createdAt := now,
             description := options.description.getD "" } ∧
    (options.id = none →
      (addAutoResponder reg trigger response options now).2 =
        "responder_" ++ toString now) ∧
    matchesTrigger text TriggerVal.other = false := by
  refine ⟨?_, ?_, rfl⟩
  · exact registryGet_registrySet reg _ _
  · intro hnone
    simp [addAutoResponder, hnone]

/-- C4 witness: storing a rule with a non-supported trigger kind in an empty
registry. -/
theorem addAutoResponder_stores_any_trigger_witness :
    registryGet (addAutoResponder [] TriggerVal.other (ResponseVal.text "y")
        {} 9).1
      (addAutoResponder [] TriggerVal.other (ResponseVal.text "y") {} 9).2 =
      some { id := "responder_9", trigger := TriggerVal.other,
             response := ResponseVal.text "y", enabled := true,
             createdAt := 9, description := "" } ∧
    (addAutoResponder [] TriggerVal.other (ResponseVal.text "y") {} 9).2 =
      "responder_" ++ toString 9 :=
  ⟨(addAutoResponder_stores_any_trigger [] TriggerVal.other
      (ResponseVal.text "y") {} 9 "t").1,
   (addAutoResponder_stores_any_trigger [] TriggerVal.other
      (ResponseVal.text "y") {} 9 "t").2.1 rfl⟩

/-! ## Claim C6: first-match auto-response -/

theorem executeAutoResponder_length_le_one (r : Responder) (m : MessageData) :
    (executeAutoResponder r m).length ≤ 1 := by
  unfold executeAutoResponder
  cases resolveResponse m r.response with
  | none => simp
  | some resp =>
    by_cases h : (resp == "") = true
    · simp [h]
    · simp [h]

theorem checkLoop_first_match (text : String) (m : MessageData)
    (k : String) (r : Responder) (post : List (String × Responder))
    (hr : (r.enabled && matchesTrigger text r.trigger) = true) :
    ∀ pre : List (String × Responder),
      (∀ p ∈ pre, (p.2.enabled && matchesTrigger text p.2.trigger) = false) →
      checkLoop text m (pre ++ (k, r) :: post) =
        (pre.map Prod.fst ++ [k], executeAutoResponder r m) := by
  intro pre
  induction pre with
  | nil =>
    intro _
    simp only [List.nil_append, checkLoop, hr, if_pos]
    simp
  | cons q qs ih =>
    intro hpre
    have hq : (q.2.enabled && matchesTrigger text q.2.trigger) = false :=
      hpre q (by simp)
    have hqs : ∀ p ∈ qs, (p.2.enabled && matchesTrigger text p.2.trigger) = false :=
      fun p hp => hpre p (by simp [hp])
    have hrec := ih hqs
    cases q with
    | mk qk qr =>
      simp only [List.cons_append, checkLoop]
      rw [if_neg (by simp_all)]
      simp [hrec]

/-- A rule whose trigger matches but whose configured response is the empty
string. -/
def emptyRespRule : Responder :=
  { id := "r1", trigger := TriggerVal.str "hello",
    response := ResponseVal.text "", enabled := true, createdAt := 0,
    description := "" }

/-- A plain-text inbound message whose body matches `hello`. -/
def helloMsg : MessageData :=
  { id := "c1", idSerialized := "false_972501111111@c.us_c1",
    fromAddr := "972501111111@c.us", toAddr := "972501234567@c.us",
    body := "hello", timestamp := 0, type := "chat", isGroupMsg := false,
    author := none, notifyName := none, fromMe := false }

/-- C6 counterexample: one enabled rule whose trigger matches (K = 1), yet
ZERO replies are sent, because the rule resolves to an empty response and
`executeAutoResponder` only sends a non-empty (truthy) string — so "exactly
one reply" does not hold for every registry with a matching enabled rule. -/
theorem checkAutoResponders_zero_replies_cex :
    emptyRespRule.enabled = true ∧
    matchesTrigger (jsTrim (jsToLower helloMsg.body)) emptyRespRule.trigger
      = true ∧
    helloMsg.type = "chat" ∧
    (checkAutoResponders [("r1", emptyRespRule)] helloMsg).2 = [] := by
  refine ⟨rfl, by decide, rfl, by decide⟩

/-- C6 (amended): for a plain-text message and a registry in which rule
`(k, r)` is the earliest enabled rule whose trigger matches the normalised
text, the loop visits exactly the rules up to and including `(k, r)` (no
rule after the first match is evaluated — in particular none of `post`),
executes only `r`, and sends AT MOST one reply: exactly one — carrying the
resolved response to the stripped sender address — when the response of `r`
resolves non-empty, and none when it resolves empty or the producer throws. -/
theorem checkAutoResponders_first_match (pre post : List (String × Responder))
    (k : String) (r : Responder) (m : MessageData)
    (hty : (m.type == "chat") = true)
    (hr : (r.enabled && matchesTrigger (jsTrim (jsToLower m.body)) r.trigger)
      = true)
    (hpre : ∀ p ∈ pre,
      (p.2.enabled && matchesTrigger (jsTrim (jsToLower m.body)) p.2.trigger)
        = false) :
    checkAutoResponders (pre ++ (k, r) :: post) m =
      (pre.map Prod.fst ++ [k], executeAutoResponder r m) ∧
    (checkAutoResponders (pre ++ (k, r) :: post) m).2.length ≤ 1 ∧
    (∀ resp, resolveResponse m r.response = some resp → (resp == "") = false →
      (checkAutoResponders (pre ++ (k, r) :: post) m).2 =
        [SendAttempt.mk (stripSenderAddress m.fromAddr) resp]) := by
  have hmain : checkAutoResponders (pre ++ (k, r) :: post) m =
      (pre.map Prod.fst ++ [k], executeAutoResponder r m) := by
    unfold checkAutoResponders
    rw [if_pos hty]
    exact checkLoop_first_match (jsTrim (jsToLower m.body)) m k r post hr pre hpre
  refine ⟨hmain, ?_, ?_⟩
  · rw [hmain]
    exact executeAutoResponder_length_le_one r m
  · intro resp hresp hne
    rw [hmain]
    show executeAutoResponder r m = [SendAttempt.mk (stripSenderAddress m.fromAddr) resp]
    unfold executeAutoResponder
    rw [hresp]
    simp [hne]

/-- A disabled rule registered before the matching one. -/
def offRule : Responder :=
  { id := "r0", trigger := TriggerVal.str "hello",
    response := ResponseVal.text "ignored", enabled := false, createdAt := 0,
    description := "" }

/-- The spec example rule: literal trigger `hello`, response `hi!`. -/
def greetRule : Responder :=
  { id := "hello", trigger := TriggerVal.str "hello",
    response := ResponseVal.text "hi!", enabled := true, createdAt := 0,
    description := "" }

/-- The spec example message: body `"  Hello  "`. -/
def greetMsg : MessageData :=
  { id := "c2", idSerialized := "false_972501111111@c.us_c2",
    fromAddr := "972501111111@c.us", toAddr := "972501234567@c.us",
    body := "  Hello  ", timestamp := 0, type := "chat", isGroupMsg := false,
    author := none, notifyName := none, fromMe := false }

/-- C6 witness: a disabled earlier rule plus the matching `hello` rule; the
loop visits both keys, fires only the second, and sends exactly one `hi!`
to the stripped sender address. -/
theorem checkAutoResponders_first_match_witness :
    checkAutoResponders [("r0", offRule), ("hello", greetRule)] greetMsg =
      (["r0", "hello"], [SendAttempt.mk "501111111" "hi!"]) := by
  have h := (checkAutoResponders_first_match [("r0", offRule)] []
    "hello" greetRule greetMsg (by decide) (by decide)
    (by
      intro p hp
      simp only [List.mem_singleton] at hp
      subst hp
      decide)).1
  exact h

/-! ## Claim C10: the handler chain survives the lifecycle

The full mutable state of `WhatsAppService` (handlers identified by opaque
tokens), and the operations `start`, `stop`, `addMessageHandler` plus
client events.  External failure points: `client.destroy()` and
`client.initialize()` may throw. -/

/-- The mutable fields of the `WhatsAppService` instance. -/
structure ServiceState where
  hasClient : Bool
  isReady : Bool
  connectionStatus : ConnStatus
  qrCode : Option String
  messageHandlers : List Nat
  deriving DecidableEq, Repr

/-- Outcomes of the external client teardown/startup calls. -/
structure LifecycleBehavior where
  destroyFails : Bool
  connectFails : Bool
  deriving DecidableEq, Repr

/-- Operation `start()`: best-effort destroy of an existing client (its error is
swallowed), reset of `isReady`/`connectionStatus`/`qrCode`/`client`, lock
cleanup, fresh client construction, then the client connect entry point,
whose failure propagates (second component `true`).  The handler list is
never touched on any path. -/
def startOp (s : ServiceState) (b : LifecycleBehavior) :
    ServiceState × Bool :=
  if s.hasClient then
    ({ s with isReady := false, connectionStatus := .disconnected,
              qrCode := none, hasClient := true }, b.connectFails)
  else ({ s with hasClient := true }, b.connectFails)

/-- Operation `stop()`: with a client present, `destroy()`; its failure is logged and
rethrown (second component `true`) leaving the resets unexecuted; on
success the lifecycle fields are reset (the client reference is kept).
Without a client, a no-op. -/
def stopOp (s : ServiceState) (b : LifecycleBehavior) :
    ServiceState × Bool :=
  if s.hasClient then
    if b.destroyFails then (s, true)
    else ({ s with isReady := false, connectionStatus := .disconnected,
                   qrCode := none }, false)
  else (s, false)

/-- Operation `addMessageHandler`: a function argument (`some h`) is appended; a
non-function argument (`none`) throws and leaves the list unchanged. -/
def addMessageHandlerOp (s : ServiceState) (h : Option Nat) : ServiceState :=
  match h with
  | some f => { s with messageHandlers := s.messageHandlers ++ [f] }
  | none => s

/-- The record returned by `getStatus()` (a pure read). -/
structure StatusView where
  isReady : Bool
  connectionStatus : ConnStatus
  hasQrCode : Bool
  handlersCount : Nat
  deriving DecidableEq, Repr

/-- Operation `getStatus()` (a pure read). -/
def getStatus (s : ServiceState) : StatusView :=
  { isReady := s.isReady, connectionStatus := s.connectionStatus,
    hasQrCode := s.qrCode.isSome,
    handlersCount := s.messageHandlers.length }

/-- A client event applied to the full service state (it only touches the
lifecycle fields, via `sessionStep`). -/
def applyEventS (s : ServiceState) (e : ClientEvent) : ServiceState :=
  { s with
    isReady := (sessionStep ⟨s.isReady, s.connectionStatus, s.qrCode⟩ e).isReady,
    connectionStatus :=
      (sessionStep ⟨s.isReady, s.connectionStatus, s.qrCode⟩ e).connectionStatus,
    qrCode := (sessionStep ⟨s.isReady, s.connectionStatus, s.qrCode⟩ e).qrCode }

/-- Any operation performed on the service over its lifetime. -/
inductive ServiceOp where
  | start (b : LifecycleBehavior)
  | stop (b : LifecycleBehavior)
  | addHandler (h : Option Nat)
  | clientEvent (e : ClientEvent)

/-- Apply one operation (ignoring the propagated-exception flag, which does
not affect the state reached). -/
def applyOp (s : ServiceState) : ServiceOp → ServiceState
  | .start b => (startOp s b).1
  | .stop b => (stopOp s b).1
  | .addHandler h => addMessageHandlerOp s h
  | .clientEvent e => applyEventS s e

/-- Run a sequence of operations. -/
def runOps (s : ServiceState) : List ServiceOp → ServiceState
  | [] => s
  | op :: ops => runOps (applyOp s op) ops

theorem applyOp_handlers_extend (s : ServiceState) (op : ServiceOp) :
    ∃ u, (applyOp s op).messageHandlers = s.messageHandlers ++ u := by
  cases op with
  | start b =>
    refine ⟨[], ?_⟩
    cases hc : s.hasClient <;> simp [applyOp, startOp, hc]
  | stop b =>
    refine ⟨[], ?_⟩
    cases hc : s.hasClient <;> cases hd : b.destroyFails <;>
      simp [applyOp, stopOp, hc, hd]
  | addHandler h =>
    cases h with
    | some f => exact ⟨[f], rfl⟩
    | none => exact ⟨[], by simp [applyOp, addMessageHandlerOp]⟩
  | clientEvent e => exact ⟨[], by simp [applyOp, applyEventS]⟩

theorem runOps_handlers_extend (ops : List ServiceOp) :
    ∀ s : ServiceState,
      ∃ t, (runOps s ops).messageHandlers = s.messageHandlers ++ t := by
  induction ops with
  | nil => intro s; exact ⟨[], by simp [runOps]⟩
  | cons op ops ih =>
    intro s
    obtain ⟨u, hu⟩ := applyOp_handlers_extend s op
    obtain ⟨t, ht⟩ := ih (applyOp s op)
    refine ⟨u ++ t, ?_⟩
    show (runOps (applyOp s op) ops).messageHandlers = _
    rw [ht, hu, List.append_assoc]

/-- C10: `start` and `stop` leave the registered handler chain exactly as
it was, on every path (destroy/connect failures included); over any
sequence of lifecycle operations, handler registrations and client events,
the handler list only ever grows by appending, so the `handlersCount`
reported by `getStatus` never decreases and every registered handler
survives every start/stop cycle. -/
theorem handlers_survive_lifecycle (s : ServiceState)
    (b : LifecycleBehavior) (ops : List ServiceOp) :
    (startOp s b).1.messageHandlers = s.messageHandlers ∧
    (stopOp s b).1.messageHandlers = s.messageHandlers ∧
    (∃ t, (runOps s ops).messageHandlers = s.messageHandlers ++ t) ∧
    (getStatus s).handlersCount ≤ (getStatus (runOps s ops)).handlersCount := by
  refine ⟨?_, ?_, runOps_handlers_extend ops s, ?_⟩
  · cases hc : s.hasClient <;> simp [startOp, hc]
  · cases hc : s.hasClient <;> cases hd : b.destroyFails <;>
      simp [stopOp, hc, hd]
  · obtain ⟨t, ht⟩ := runOps_handlers_extend ops s
    simp [getStatus, ht]
